import Mathlib

/-!
Shallow embedding of the computational core of `src/app.py` (a Streamlit
farm-bookkeeping application) and proofs about it.

Modelling conventions:
* Python `float` values (prices, amounts, quantities) are modelled as exact
  rationals `ℚ`; the arithmetic the program performs on them is embedded as
  the corresponding exact rational arithmetic.
* Python `round(x, 2)` is modelled by `roundTo2` below.
* `datetime` subtraction `(now - purchase).days` yields an integer number of
  days; `calculate_depreciation` is therefore parameterised by that integer,
  and the proleptic-Gregorian day count used by `datetime` is embedded as
  `Date.toordinal` / `daysBetween` so that statements about concrete calendar
  dates can be evaluated.
* A Python division that can raise `ZeroDivisionError` is embedded as the
  fallible `pyDiv` returning `Except PyError ℚ`.
-/

namespace FarmManagement

/-- Embedding of Python's built-in `min` on two numbers: `x if x <= y else y`.
It agrees with Mathlib's `min` (see `pymin_eq_min`); it is written with an
`if` over the decidable order on `ℚ` so that it is directly executable. -/
def pymin (a b : ℚ) : ℚ := if a ≤ b then a else b

/-- Embedding of Python `round(x, 2)`: round to two decimal places, here as
round-half-up on rationals via `Rat.floor` (Python uses round-half-even on
binary floats; every concrete value this development evaluates is away from a
half-way point, where the two agree). -/
def roundTo2 (x : ℚ) : ℚ := ((x * 100 + 1 / 2).floor : ℚ) / 100

/-! ### Calendar dates

`app.py` stores dates as ISO `YYYY-MM-DD` strings and measures elapsed time by
`(datetime.now() - datetime.strptime(purchase_date, '%Y-%m-%d')).days`.  The
day count of the proleptic Gregorian calendar (Python's `date.toordinal`) is
embedded here so that claims phrased in terms of calendar dates can be
evaluated on concrete dates. -/

/-- A proleptic-Gregorian calendar date (year ≥ 1, month 1–12, day 1–31). -/
structure Date where
  year : ℕ
  month : ℕ
  day : ℕ
deriving DecidableEq

/-- Gregorian leap-year test. -/
def isLeap (y : ℕ) : Bool := (y % 4 = 0 && y % 100 != 0) || y % 400 = 0

/-- Days in the months strictly before month `m` of a non-leap year. -/
def daysBeforeMonth (m : ℕ) : ℕ :=
  [0, 0, 31, 59, 90, 120, 151, 181, 212, 243, 273, 304, 334].getD m 0

/-- Python's `date.toordinal`: the number of days from 0001-01-01 (= day 1)
to the given date in the proleptic Gregorian calendar. -/
def Date.toordinal (dt : Date) : ℕ :=
  365 * (dt.year - 1) + (dt.year - 1) / 4 - (dt.year - 1) / 100 + (dt.year - 1) / 400
    + daysBeforeMonth dt.month
    + (if isLeap dt.year ∧ 3 ≤ dt.month then 1 else 0)
    + dt.day

/-- Embedding of `(now - purchase).days` for whole dates: the signed number of
days from `purchase` to `now`. -/
def daysBetween (now purchase : Date) : ℤ :=
  (now.toordinal : ℤ) - (purchase.toordinal : ℤ)

/-- Adding whole calendar years to a date (used to state "purchase_date +
useful_life_years"). -/
def Date.addYears (dt : Date) (n : ℕ) : Date :=
  { dt with year := dt.year + n }

/-! ### Depreciation (`calculate_depreciation`, src/app.py lines 192–203) -/

/-- The straight-line branch of `calculate_depreciation` (src/app.py lines
196–199), given the already-computed `years_elapsed`:
`annual_depreciation = purchase_price / useful_life_years`,
`total_depreciation = min(annual_depreciation * years_elapsed, purchase_price)`,
`current_value = purchase_price - total_depreciation`. -/
def straight_line_value (purchase_price useful_life_years years_elapsed : ℚ) : ℚ :=
  let annual_depreciation := purchase_price / useful_life_years
  let total_depreciation := pymin (annual_depreciation * years_elapsed) purchase_price
  purchase_price - total_depreciation

/-- Embedding of `calculate_depreciation` (src/app.py lines 192–203).
`elapsed_days` stands for `(datetime.now() - strptime(purchase_date)).days`
(see `daysBetween`); `years_elapsed = elapsed_days / 365.25`; an unrecognised
`method` leaves `current_value = purchase_price`; the result is rounded to two
decimals.  The form constrains `useful_life_years` to `[1, 50]`, so the
division by `useful_life_years` is embedded as total rational division. -/
def calculate_depreciation (purchase_price useful_life_years : ℚ) (elapsed_days : ℤ)
    (method : String := "straight_line") : ℚ :=
  let years_elapsed : ℚ := (elapsed_days : ℚ) / (36525 / 100)
  let current_value : ℚ :=
    if method = "straight_line" then
      straight_line_value purchase_price useful_life_years years_elapsed
    else
      purchase_price
  roundTo2 current_value

/-- Modelled from the spec (§4.1 algorithm text, for the refinement claim C1):
`round(purchase_price − min((purchase_price / useful_life_years) × elapsed_years,
purchase_price), 2)`. -/
def spec_current_value (purchase_price useful_life_years elapsed_years : ℚ) : ℚ :=
  roundTo2 (purchase_price - min (purchase_price / useful_life_years * elapsed_years) purchase_price)

/-! ### Indirect-cost allocation (src/app.py lines 474–496) -/

/-- The one Python exception this program can raise in its arithmetic. -/
inductive PyError where
  | zeroDivisionError
deriving DecidableEq

/-- Embedding of Python division on floats: raises `ZeroDivisionError` on a
zero divisor, otherwise exact division. -/
def pyDiv (a b : ℚ) : Except PyError ℚ :=
  if b = 0 then .error .zeroDivisionError else .ok (a / b)

/-- One row of the `cost_allocations` table as inserted by the Indirect Costs
form (src/app.py lines 489–494). -/
structure Allocation where
  cost_center_id : ℤ
  allocated_amount : ℚ
  allocation_percentage : ℚ
deriving DecidableEq

/-- Embedding of the allocation part of the Indirect Costs save path
(src/app.py lines 474–496): the rows inserted into `cost_allocations` for one
saved indirect cost.  Under "Equal Distribution" the code computes
`num_centers = len(cost_centers)` and `allocation_per_center = amount /
num_centers` (an unguarded Python division, embedded as `pyDiv`), then inserts
one row per cost center with `allocated_amount = allocation_per_center` and
`allocation_percentage = 100.0 / num_centers` (this in-loop division only ever
executes with `num_centers ≥ 1`, where total rational division agrees with
Python).  For any other allocation method no `cost_allocations` rows are
inserted. -/
def saveIndirectCost (allocation_method : String) (amount : ℚ) (cost_centers : List ℤ) :
    Except PyError (List Allocation) :=
  if allocation_method = "Equal Distribution" then do
    let num_centers : ℚ := (cost_centers.length : ℚ)
    let allocation_per_center ← pyDiv amount num_centers
    return cost_centers.map fun c =>
      { cost_center_id := c
        allocated_amount := allocation_per_center
        allocation_percentage := 100 / num_centers }
  else
    return []

/-! ### Inventory upsert (src/app.py lines 417–426, schema lines 91–104) -/

/-- One row of the `inventory` table (schema at src/app.py lines 91–104).
`id` is `INTEGER PRIMARY KEY AUTOINCREMENT`; note that `item_name` carries no
UNIQUE constraint. -/
structure InventoryRow where
  id : ℕ
  item_name : String
  category : String
  subcategory : String
  quantity : ℚ
  unit : String
  unit_price : ℚ
  total_value : ℚ
deriving DecidableEq

/-- The scalar subquery `COALESCE((SELECT quantity FROM inventory WHERE
item_name=?), 0)`: the quantity of the first row (in rowid order) whose
`item_name` matches, or 0 if none. -/
def lookupQuantity (inv : List InventoryRow) (name : String) : ℚ :=
  match inv.find? (fun r => r.item_name = name) with
  | some r => r.quantity
  | none => 0

/-- Embedding of the `INSERT OR REPLACE INTO inventory ...` statement run by
the Expense Entry form (src/app.py lines 419–426).  The inventory list is kept
in rowid order.  SQLite's `INSERT OR REPLACE` replaces a row only on a
uniqueness-constraint conflict; the insert leaves `id` to AUTOINCREMENT (a
fresh value, never conflicting) and `item_name` has no UNIQUE constraint, so
the statement always appends a brand-new row, with
`quantity = COALESCE((SELECT quantity ... WHERE item_name=?), 0) + quantity`,
`unit_price = amount / (quantity if quantity > 0 else 1)` and
`total_value = amount`. -/
def inventoryUpsert (inv : List InventoryRow) (freshId : ℕ)
    (item_name category subcategory : String) (quantity : ℚ) (unit : String)
    (amount : ℚ) : List InventoryRow :=
  inv ++ [{ id := freshId
            item_name := item_name
            category := category
            subcategory := subcategory
            quantity := lookupQuantity inv item_name + quantity
            unit := unit
            unit_price := amount / (if quantity > 0 then quantity else 1)
            total_value := amount }]

/-! ### Revenue entry (src/app.py lines 532–570) -/

/-- One row of the `revenue` table as inserted by the Revenue Entry form. -/
structure RevenueRow where
  cost_center_id : ℤ
  product_name : String
  quantity : ℚ
  unit : String
  unit_price : ℚ
  total_amount : ℚ
  season : String
deriving DecidableEq

/-- Embedding of the Revenue Entry save path (src/app.py lines 549–564):
`total_amount = quantity * unit_price` is computed at the form, and the row is
inserted only when `product_name` is non-empty and `quantity > 0` and
`unit_price > 0` (otherwise the submission is rejected with an error
message). -/
def revenueSave (cost_center_id : ℤ) (product_name : String) (quantity : ℚ)
    (unit : String) (unit_price : ℚ) (season : String) : Option RevenueRow :=
  let total_amount := quantity * unit_price
  if product_name ≠ "" ∧ 0 < quantity ∧ 0 < unit_price then
    some { cost_center_id := cost_center_id
           product_name := product_name
           quantity := quantity
           unit := unit
           unit_price := unit_price
           total_amount := total_amount
           season := season }
  else
    none

/-! ### Helper lemmas -/

theorem pymin_eq_min (a b : ℚ) : pymin a b = min a b := by
  by_cases h : a ≤ b <;> simp [pymin, min_def, h]

theorem roundTo2_eq_floor (x : ℚ) : roundTo2 x = ((⌊x * 100 + 1 / 2⌋ : ℤ) : ℚ) / 100 := by
  rw [roundTo2, (Rat.floor_def' _).trans Rat.floor_def.symm]

theorem roundTo2_mono {x y : ℚ} (h : x ≤ y) : roundTo2 x ≤ roundTo2 y := by
  rw [roundTo2_eq_floor, roundTo2_eq_floor]
  have hr : ⌊x * 100 + 1 / 2⌋ ≤ ⌊y * 100 + 1 / 2⌋ :=
    Int.floor_le_floor (by nlinarith)
  have hq : ((⌊x * 100 + 1 / 2⌋ : ℤ) : ℚ) ≤ ((⌊y * 100 + 1 / 2⌋ : ℤ) : ℚ) := by
    exact_mod_cast hr
  linarith

/-- Evaluation rule for `roundTo2` at a concrete rational: supply the integer
`k` with `k ≤ x * 100 + 1/2 < k + 1`. -/
theorem roundTo2_eval {x : ℚ} {k : ℤ} (h1 : (k : ℚ) ≤ x * 100 + 1 / 2)
    (h2 : x * 100 + 1 / 2 < (k : ℚ) + 1) : roundTo2 x = (k : ℚ) / 100 := by
  rw [roundTo2_eq_floor]
  rw [show ⌊x * 100 + 1 / 2⌋ = k from Int.floor_eq_iff.mpr ⟨h1, by exact_mod_cast h2⟩]

theorem roundTo2_zero : roundTo2 0 = 0 := by
  rw [roundTo2_eval (k := 0) (by norm_num) (by norm_num)]
  norm_num

theorem roundTo2_nonneg {x : ℚ} (h : 0 ≤ x) : 0 ≤ roundTo2 x := by
  have hm := roundTo2_mono h
  rwa [roundTo2_zero] at hm

theorem straight_line_value_eq (pp ul e : ℚ) :
    straight_line_value pp ul e = pp - min (pp / ul * e) pp := by
  simp only [straight_line_value, pymin_eq_min]

theorem straight_line_value_of_le {pp ul e : ℚ} (h : pp / ul * e ≤ pp) :
    straight_line_value pp ul e = pp - pp / ul * e := by
  rw [straight_line_value_eq, min_eq_left h]

theorem straight_line_value_of_ge {pp ul e : ℚ} (h : pp ≤ pp / ul * e) :
    straight_line_value pp ul e = 0 := by
  rw [straight_line_value_eq, min_eq_right h, sub_self]

theorem straight_line_value_nonneg (pp ul e : ℚ) : 0 ≤ straight_line_value pp ul e := by
  rw [straight_line_value_eq]
  have h := min_le_right (pp / ul * e) pp
  linarith

theorem straight_line_value_le (pp ul e : ℚ) (hp : 0 ≤ pp) (hl : 1 ≤ ul) (he : 0 ≤ e) :
    straight_line_value pp ul e ≤ pp := by
  rw [straight_line_value_eq]
  have h1 : 0 ≤ min (pp / ul * e) pp :=
    le_min (mul_nonneg (div_nonneg hp (by linarith)) he) hp
  linarith

theorem straight_line_value_anti (pp ul : ℚ) (hp : 0 ≤ pp) (hl : 1 ≤ ul) {e1 e2 : ℚ}
    (h : e1 ≤ e2) : straight_line_value pp ul e2 ≤ straight_line_value pp ul e1 := by
  rw [straight_line_value_eq, straight_line_value_eq]
  have ha : 0 ≤ pp / ul := div_nonneg hp (by linarith)
  have hmin : min (pp / ul * e1) pp ≤ min (pp / ul * e2) pp :=
    min_le_min (mul_le_mul_of_nonneg_left h ha) le_rfl
  linarith

theorem calculate_depreciation_straight_line (pp ul : ℚ) (d : ℤ) :
    calculate_depreciation pp ul d
      = roundTo2 (straight_line_value pp ul ((d : ℚ) / (36525 / 100))) := rfl

theorem spec_current_value_of_le {pp ul e : ℚ} (h : pp / ul * e ≤ pp) :
    spec_current_value pp ul e = roundTo2 (pp - pp / ul * e) := by
  rw [spec_current_value, min_eq_left h]

/-! ### Claim theorems -/

/-- C1: for every `purchase_price ≥ 0`, `useful_life_years ≥ 1` and elapsed
day count, `calculate_depreciation` under the straight-line method returns
`round(purchase_price − min((purchase_price / useful_life_years) ×
(elapsed_days / 365.25), purchase_price), 2)` (the spec's §4.1 formula,
`spec_current_value`); and the spec's example — purchase_price 10000, useful
life 10 years, 5 years elapsed — yields 5000.00. -/
theorem depreciation_matches_spec_formula (pp ul : ℚ) (d : ℤ) (hp : 0 ≤ pp) (hl : 1 ≤ ul) :
    calculate_depreciation pp ul d "straight_line"
        = spec_current_value pp ul ((d : ℚ) / (36525 / 100))
      ∧ spec_current_value 10000 10 5 = 5000 := by
  constructor
  · show roundTo2 (straight_line_value pp ul ((d : ℚ) / (36525 / 100)))
        = spec_current_value pp ul ((d : ℚ) / (36525 / 100))
    rw [spec_current_value, straight_line_value_eq]
  · rw [spec_current_value_of_le (by norm_num),
      show (10000 : ℚ) - 10000 / 10 * 5 = 5000 by norm_num,
      roundTo2_eval (k := 500000) (by norm_num) (by norm_num)]
    norm_num

/-- Witness for C1 at purchase_price 10000, useful life 10, 1461 elapsed
days. -/
theorem depreciation_matches_spec_formula_witness :
    (0 : ℚ) ≤ 10000 ∧ (1 : ℚ) ≤ 10 ∧
      (calculate_depreciation 10000 10 1461 "straight_line"
          = spec_current_value 10000 10 ((1461 : ℤ) / (36525 / 100))
        ∧ spec_current_value 10000 10 5 = 5000) :=
  ⟨by norm_num, by norm_num,
    depreciation_matches_spec_formula 10000 10 1461 (by norm_num) (by norm_num)⟩

/-- C4 (counterexample): the claimed bound `calculate_depreciation ∈
[0, purchase_price]` for *every* purchase date / now pair fails: with
purchase_price 10000, useful life 10, now = 2020-01-01 and purchase_date =
2021-01-01 (a purchase date in the future, elapsed days = −366), the returned
value is 11002.05 > 10000. -/
theorem depreciation_in_range_counterexample :
    calculate_depreciation 10000 10 (daysBetween ⟨2020, 1, 1⟩ ⟨2021, 1, 1⟩)
      ∉ Set.Icc (0 : ℚ) 10000 := by
  have hd : daysBetween ⟨2020, 1, 1⟩ ⟨2021, 1, 1⟩ = -366 := by decide
  rw [hd, Set.mem_Icc, calculate_depreciation_straight_line,
    straight_line_value_of_le (by push_cast; norm_num),
    show (10000 : ℚ) - 10000 / 10 * (((-366 : ℤ) : ℚ) / (36525 / 100)) = 5358000 / 487 by
      push_cast; norm_num,
    roundTo2_eval (k := 1100205) (by norm_num) (by norm_num)]
  push_cast
  norm_num

/-- C4 (amended): for `purchase_price ≥ 0`, `useful_life_years ≥ 1` and a
purchase date not after "now" (elapsed days ≥ 0), the returned value lies in
`[0, round(purchase_price, 2)]`.  (The upper end must be the rounded price:
for sub-cent prices such as 0.005 the 2-decimal rounding can exceed the raw
price.) -/
theorem depreciation_in_range (pp ul : ℚ) (d : ℤ) (hp : 0 ≤ pp) (hl : 1 ≤ ul)
    (hd : 0 ≤ d) : calculate_depreciation pp ul d ∈ Set.Icc 0 (roundTo2 pp) := by
  rw [Set.mem_Icc, calculate_depreciation_straight_line]
  have he : (0 : ℚ) ≤ (d : ℚ) / (36525 / 100) := by
    apply div_nonneg _ (by norm_num)
    exact_mod_cast hd
  exact ⟨roundTo2_nonneg (straight_line_value_nonneg pp ul _),
    roundTo2_mono (straight_line_value_le pp ul _ hp hl he)⟩

/-- Witness for the amended C4 at purchase_price 10000, useful life 10, 1461
elapsed days. -/
theorem depreciation_in_range_witness :
    (0 : ℚ) ≤ 10000 ∧ (1 : ℚ) ≤ 10 ∧ (0 : ℤ) ≤ 1461 ∧
      calculate_depreciation 10000 10 1461 ∈ Set.Icc 0 (roundTo2 10000) :=
  ⟨by norm_num, by norm_num, by norm_num,
    depreciation_in_range 10000 10 1461 (by norm_num) (by norm_num) (by norm_num)⟩

/-- C5 (counterexample): the value at `now = purchase_date +
useful_life_years` calendar years need not be 0.  Asset purchased 2021-01-01
with a 1-year useful life and purchase_price 10000: one calendar year later
(2022-01-01) only 365 days have elapsed, 365 / 365.25 < 1 year, and the
returned value is 6.84, not 0. -/
theorem depreciation_end_of_life_counterexample :
    calculate_depreciation 10000 1
      (daysBetween (Date.addYears ⟨2021, 1, 1⟩ 1) ⟨2021, 1, 1⟩) ≠ 0 := by
  have hd : daysBetween (Date.addYears ⟨2021, 1, 1⟩ 1) ⟨2021, 1, 1⟩ = 365 := by decide
  rw [hd, calculate_depreciation_straight_line,
    straight_line_value_of_le (by push_cast; norm_num),
    show (10000 : ℚ) - 10000 / 1 * (((365 : ℤ) : ℚ) / (36525 / 100)) = 10000 / 1461 by
      push_cast; norm_num,
    roundTo2_eval (k := 684) (by norm_num) (by norm_num)]
  push_cast
  norm_num

/-- C5 (amended): for `purchase_price ≥ 0` and `useful_life_years ≥ 1`, the
returned value is 0 once at least `365.25 × useful_life_years` days have
elapsed (hence also at every later time), and the returned value is never
negative at any time.  At exactly `useful_life_years` *calendar* years the
value can still be positive when the span contains fewer than
`365.25 × useful_life_years` days (see the counterexample). -/
theorem depreciation_end_of_life (pp ul : ℚ) (hp : 0 ≤ pp) (hl : 1 ≤ ul) :
    (∀ d : ℤ, 36525 / 100 * ul ≤ (d : ℚ) → calculate_depreciation pp ul d = 0) ∧
      (∀ d : ℤ, 0 ≤ calculate_depreciation pp ul d) := by
  have hul : (0 : ℚ) < ul := by linarith
  constructor
  · intro d hd
    rw [calculate_depreciation_straight_line, straight_line_value_of_ge ?hge, roundTo2_zero]
    case hge =>
      have he : ul ≤ (d : ℚ) / (36525 / 100) := by
        rw [le_div_iff₀ (by norm_num)]
        linarith
      calc pp = pp / ul * ul := by field_simp
        _ ≤ pp / ul * ((d : ℚ) / (36525 / 100)) :=
            mul_le_mul_of_nonneg_left he (div_nonneg hp hul.le)
  · intro d
    rw [calculate_depreciation_straight_line]
    exact roundTo2_nonneg (straight_line_value_nonneg pp ul _)

/-- Witness for the amended C5: purchase_price 10000, useful life 10 years,
3653 elapsed days (≥ 365.25 × 10 = 3652.5). -/
theorem depreciation_end_of_life_witness :
    (0 : ℚ) ≤ 10000 ∧ (1 : ℚ) ≤ 10 ∧ (36525 / 100 * 10 : ℚ) ≤ ((3653 : ℤ) : ℚ) ∧
      calculate_depreciation 10000 10 3653 = 0 ∧
      0 ≤ calculate_depreciation 10000 10 (-1) :=
  ⟨by norm_num, by norm_num, by push_cast; norm_num,
    (depreciation_end_of_life 10000 10 (by norm_num) (by norm_num)).1 3653
      (by push_cast; norm_num),
    (depreciation_end_of_life 10000 10 (by norm_num) (by norm_num)).2 (-1)⟩

/-- C6: for fixed `purchase_price ≥ 0` and `useful_life_years ≥ 1`, the value
returned by `calculate_depreciation` is monotonically non-increasing in
elapsed time: `d1 ≤ d2` implies the value at `d2` is ≤ the value at `d1`. -/
theorem depreciation_antitone (pp ul : ℚ) (hp : 0 ≤ pp) (hl : 1 ≤ ul) (d1 d2 : ℤ)
    (h12 : d1 ≤ d2) : calculate_depreciation pp ul d2 ≤ calculate_depreciation pp ul d1 := by
  rw [calculate_depreciation_straight_line, calculate_depreciation_straight_line]
  apply roundTo2_mono
  apply straight_line_value_anti pp ul hp hl
  have hc : ((d1 : ℚ)) ≤ (d2 : ℚ) := by exact_mod_cast h12
  exact (div_le_div_iff_of_pos_right (by norm_num)).mpr hc

/-- Witness for C6 at purchase_price 10000, useful life 10, days 730 ≤ 1461. -/
theorem depreciation_antitone_witness :
    (0 : ℚ) ≤ 10000 ∧ (1 : ℚ) ≤ 10 ∧ (730 : ℤ) ≤ 1461 ∧
      calculate_depreciation 10000 10 1461 ≤ calculate_depreciation 10000 10 730 :=
  ⟨by norm_num, by norm_num, by norm_num,
    depreciation_antitone 10000 10 (by norm_num) (by norm_num) 730 1461 (by norm_num)⟩

/-- C10: for any `method` argument other than `"straight_line"`,
`calculate_depreciation` returns `round(purchase_price, 2)` regardless of the
elapsed time — no depreciation is applied for unrecognised methods. -/
theorem depreciation_other_method (pp ul : ℚ) (d : ℤ) (method : String) (hl : 1 ≤ ul)
    (hm : method ≠ "straight_line") :
    calculate_depreciation pp ul d method = roundTo2 pp := by
  simp only [calculate_depreciation]
  rw [if_neg hm]

/-- Witness for C10 with method "declining_balance". -/
theorem depreciation_other_method_witness :
    (1 : ℚ) ≤ 10 ∧ ("declining_balance" : String) ≠ "straight_line" ∧
      calculate_depreciation 5000 10 3000 "declining_balance" = roundTo2 5000 :=
  ⟨by norm_num, by decide,
    depreciation_other_method 5000 10 3000 "declining_balance" (by norm_num) (by decide)⟩

/-- C2: for every amount and every non-empty list of N cost centers, saving
with "Equal Distribution" inserts exactly one allocation row per cost center
(in order), the allocated amounts sum exactly to the original amount, and
every row's percentage is 100/N. -/
theorem equal_distribution_invariant (amount : ℚ) (centers : List ℤ)
    (h : 1 ≤ centers.length) :
    ∃ rows : List Allocation,
      saveIndirectCost "Equal Distribution" amount centers = .ok rows ∧
      rows.map Allocation.cost_center_id = centers ∧
      (rows.map Allocation.allocated_amount).sum = amount ∧
      ∀ r ∈ rows, r.allocation_percentage = 100 / (centers.length : ℚ) := by
  have hn : ((centers.length : ℕ) : ℚ) ≠ 0 := Nat.cast_ne_zero.mpr (by omega)
  refine ⟨centers.map fun c =>
      { cost_center_id := c
        allocated_amount := amount / (centers.length : ℚ)
        allocation_percentage := 100 / (centers.length : ℚ) }, ?_, ?_, ?_, ?_⟩
  · unfold saveIndirectCost pyDiv
    rw [if_pos rfl]
    show bind
        (if ((centers.length : ℚ)) = 0 then Except.error PyError.zeroDivisionError
          else Except.ok (amount / ((centers.length : ℚ))))
        (fun allocation_per_center =>
          pure (List.map (fun c =>
            ({ cost_center_id := c, allocated_amount := allocation_per_center,
               allocation_percentage := 100 / ((centers.length : ℚ)) } : Allocation)) centers))
      = Except.ok (List.map (fun c =>
        ({ cost_center_id := c, allocated_amount := amount / ((centers.length : ℚ)),
           allocation_percentage := 100 / ((centers.length : ℚ)) } : Allocation)) centers)
    rw [if_neg hn]
    rfl
  · rw [List.map_map]
    rw [show (Allocation.cost_center_id ∘ fun c : ℤ =>
        ({ cost_center_id := c
           allocated_amount := amount / (centers.length : ℚ)
           allocation_percentage := 100 / (centers.length : ℚ) } : Allocation)) = id from rfl]
    exact List.map_id centers
  · rw [List.map_map]
    rw [show (Allocation.allocated_amount ∘ fun c : ℤ =>
        ({ cost_center_id := c
           allocated_amount := amount / (centers.length : ℚ)
           allocation_percentage := 100 / (centers.length : ℚ) } : Allocation))
      = fun _ : ℤ => amount / (centers.length : ℚ) from rfl]
    rw [List.map_const', List.sum_replicate, nsmul_eq_mul, mul_comm,
      div_mul_cancel₀ amount hn]
  · intro r hr
    rw [List.mem_map] at hr
    obtain ⟨c, _, rfl⟩ := hr
    rfl

/-- Witness for C2: amount 700 over the seven default cost centers; each row
gets 100.00 and percentage 100/7. -/
theorem equal_distribution_invariant_witness :
    1 ≤ ([1, 2, 3, 4, 5, 6, 7] : List ℤ).length ∧
      ∃ rows : List Allocation,
        saveIndirectCost "Equal Distribution" 700 [1, 2, 3, 4, 5, 6, 7] = .ok rows ∧
        rows.map Allocation.cost_center_id = [1, 2, 3, 4, 5, 6, 7] ∧
        (rows.map Allocation.allocated_amount).sum = 700 ∧
        ∀ r ∈ rows,
          r.allocation_percentage = 100 / ((([1, 2, 3, 4, 5, 6, 7] : List ℤ).length : ℕ) : ℚ) :=
  ⟨by decide, equal_distribution_invariant 700 [1, 2, 3, 4, 5, 6, 7] (by decide)⟩

/-- C3 (counterexample): saving an indirect cost of amount 700 under "Equal
Distribution" with an empty cost-center set does not take a guarded error
path: the block evaluates `amount / num_centers` with `num_centers = 0`, and
the result is exactly the `ZeroDivisionError` of that division (`pyDiv 700 0`)
— there is no explicit `N = 0` check before it. -/
theorem equal_distribution_empty_counterexample :
    saveIndirectCost "Equal Distribution" 700 [] = .error .zeroDivisionError ∧
      pyDiv 700 ((([] : List ℤ).length : ℕ) : ℚ) = .error .zeroDivisionError :=
  ⟨rfl, rfl⟩

/-- C3 (amended): the equal-distribution block contains no explicit guard for
an empty cost-center set; for every amount, saving with "Equal Distribution"
and zero cost centers evaluates `amount / 0`, which raises
`ZeroDivisionError`, and no allocation rows are produced. -/
theorem equal_distribution_empty_raises (amount : ℚ) :
    saveIndirectCost "Equal Distribution" amount [] = .error .zeroDivisionError := rfl

/-- C9: saving an indirect cost with allocation method "Manual Allocation" or
"Based on Direct Costs" inserts no rows into `cost_allocations`; automatic
allocation happens only for "Equal Distribution". -/
theorem non_equal_methods_insert_nothing (method : String) (amount : ℚ)
    (centers : List ℤ)
    (h : method = "Manual Allocation" ∨ method = "Based on Direct Costs") :
    saveIndirectCost method amount centers = .ok [] := by
  rcases h with h | h <;> subst h <;> rfl

/-- Witness for C9 with "Manual Allocation". -/
theorem non_equal_methods_insert_nothing_witness :
    (("Manual Allocation" : String) = "Manual Allocation" ∨
        ("Manual Allocation" : String) = "Based on Direct Costs") ∧
      saveIndirectCost "Manual Allocation" 700 [1, 2] = .ok [] :=
  ⟨Or.inl rfl, non_equal_methods_insert_nothing "Manual Allocation" 700 [1, 2] (Or.inl rfl)⟩

/-- C7 (code bug): recording a linked expense for an item already in
inventory does NOT leave exactly one row for that item.  Starting from an
inventory holding one "Seed" row with quantity 5 and recording a consumables
expense for "Seed" with quantity 3 (amount 30), the `INSERT OR REPLACE`
appends a second "Seed" row (quantity 8 = 5 + 3) while the old row survives:
`item_name` has no UNIQUE constraint, so the REPLACE clause never fires. -/
theorem inventory_upsert_duplicates :
    inventoryUpsert
        [{ id := 1, item_name := "Seed", category := "Inputs (Consumables)",
           subcategory := "", quantity := 5, unit := "kg", unit_price := 2,
           total_value := 10 }] 2 "Seed" "Inputs (Consumables)" "" 3 "kg" 30
      = [{ id := 1, item_name := "Seed", category := "Inputs (Consumables)",
           subcategory := "", quantity := 5, unit := "kg", unit_price := 2,
           total_value := 10 },
         { id := 2, item_name := "Seed", category := "Inputs (Consumables)",
           subcategory := "", quantity := 8, unit := "kg", unit_price := 10,
           total_value := 30 }] ∧
      ((inventoryUpsert
          [{ id := 1, item_name := "Seed", category := "Inputs (Consumables)",
             subcategory := "", quantity := 5, unit := "kg", unit_price := 2,
             total_value := 10 }] 2 "Seed" "Inputs (Consumables)" "" 3 "kg" 30).filter
        (fun r => r.item_name = "Seed")).length = 2 := by
  constructor
  · simp only [inventoryUpsert, lookupQuantity, List.find?, List.cons_append,
      List.nil_append]
    norm_num
  · simp only [inventoryUpsert, lookupQuantity, List.find?, List.cons_append,
      List.nil_append, List.filter, List.length]

/-- C8: every revenue record accepted by the revenue-entry path (non-empty
product name, positive quantity and unit price) is stored with
`total_amount = quantity × unit_price`. -/
theorem revenue_total_amount (cc : ℤ) (pn : String) (q : ℚ) (u : String) (up : ℚ)
    (ss : String) (h : pn ≠ "" ∧ 0 < q ∧ 0 < up) :
    ∃ r : RevenueRow, revenueSave cc pn q u up ss = some r ∧
      r.total_amount = r.quantity * r.unit_price ∧ r.quantity = q ∧ r.unit_price = up := by
  have hsave : revenueSave cc pn q u up ss
      = some { cost_center_id := cc, product_name := pn, quantity := q, unit := u,
               unit_price := up, total_amount := q * up, season := ss } := by
    simp only [revenueSave]
    rw [if_pos h]
  exact ⟨_, hsave, rfl, rfl, rfl⟩

/-- Witness for C8: 50 kg of mango at 4 per kg. -/
theorem revenue_total_amount_witness :
    (("Mango" : String) ≠ "" ∧ (0 : ℚ) < 50 ∧ (0 : ℚ) < 4) ∧
      ∃ r : RevenueRow, revenueSave 1 "Mango" 50 "kg" 4 "summer" = some r ∧
        r.total_amount = r.quantity * r.unit_price ∧ r.quantity = 50 ∧ r.unit_price = 4 :=
  ⟨⟨by decide, by norm_num, by norm_num⟩,
    revenue_total_amount 1 "Mango" 50 "kg" 4 "summer" ⟨by decide, by norm_num, by norm_num⟩⟩

end FarmManagement
